import Mathlib

/-
  Verification of the face-recognition attendance system
  (config.py, database_module.py, face_recognition_integration.py,
  user_registration.py, gui_integration.py) against its design document.

  Shallow embedding conventions:
  * Face encodings are fixed-length float vectors in the source; they are
    modelled as lists of rationals.  Euclidean distances are compared only
    against thresholds, and the square root is strictly monotone on
    nonnegative reals, so every comparison `dist OP threshold` is embedded
    as `distSq OP threshold^2` on squared distances.  This keeps every
    definition computable.
  * Python dictionaries with string keys are association lists; a lookup of
    a missing key is a `KeyError`.  Python attribute lookup on the database
    manager object is a lookup in the list of method names the class defines;
    a missing attribute is an `AttributeError`.
  * Wall-clock times are rationals (seconds); timestamps in the decider state
    are seconds as well.
  * Fallible Python code is embedded in `Except PyErr`.
-/

namespace FaceRec

/-- Exceptions raised by the Python code paths that the claims exercise. -/
inductive PyErr where
  | keyError
  | attributeError
  | valueError
deriving DecidableEq

/-- Face encoding: a fixed-length vector of floats in the source
(128-dimensional in deployment), modelled as a list of rationals.
No function in the source validates the length. -/
abbrev Encoding := List ℚ

/-- Squared Euclidean distance between two encodings.  The source compares
`np.linalg.norm(a - b)` against thresholds; since `Real.sqrt` is strictly
monotone on nonnegatives, `dist OP t` holds iff `distSq OP t^2`, and the
whole development phrases distance comparisons on squares. -/
def distSq (a b : Encoding) : ℚ :=
  (List.zipWith (fun x y => (x - y) ^ 2) a b).sum

/-- Embedding of `face_recognition.face_distance(known_encodings, q)`:
the list of (squared) Euclidean distances from the query to every known
encoding, in gallery order. -/
def face_distance_sq (knowns : List Encoding) (q : Encoding) : List ℚ :=
  knowns.map (fun e => distSq q e)

/-- Embedding of `face_recognition.compare_faces(known_encodings, q,
tolerance)`: `list(face_distance(known_encodings, q) <= tolerance)`.
`tolSq` is the squared tolerance. -/
def compare_faces (knowns : List Encoding) (q : Encoding) (tolSq : ℚ) : List Bool :=
  (face_distance_sq knowns q).map (fun d => decide (d ≤ tolSq))

/-- Embedding of `np.argmin` on a list of (squared) distances: the index of
the first minimal element, `none` on the empty list (where `np.argmin`
raises `ValueError`). -/
def argminIdx : List ℚ → Option Nat
  | [] => none
  | x :: xs =>
    match argminIdx xs with
    | none => some 0
    | some j => if xs.getD j 0 < x then some (j + 1) else some 0

/-- Embedding of Python `list.index(True)` / the first `True` position in a
boolean list (used by the registration duplicate-face branch through
`matches.index(True)` after `True in matches`). -/
def firstTrueIdx (l : List Bool) : Option Nat :=
  l.findIdx? (fun b => b)

/-- config.py line 17: `FACE_MATCH_THRESHOLD = 0.6`.  Used by
`user_registration.py` as the `compare_faces` tolerance; the recognition
loops do NOT use it (they hardcode 0.5). -/
def FACE_MATCH_THRESHOLD : ℚ := 6 / 10

/-- config.py line 21: `ATTENDANCE_LOGGING_INTERVAL = 300`.  Defined in the
configuration but never imported by any recognition loop. -/
def ATTENDANCE_LOGGING_INTERVAL : ℚ := 300

/-- The tolerance hardcoded in both recognition loops
(face_recognition_integration.py line 110/119 and gui_integration.py
line 115/120): `0.5`. -/
def cliTolerance : ℚ := 1 / 2

/-- Result of the per-face matching decision: either a match with the best
gallery identity (user id and display name as assigned by the loop), or the
`"Unknown"` label. -/
inductive MatchResult where
  | matched (userId nm : String)
  | unknown
deriving DecidableEq

/-- Embedding of the per-face matching block of `run_face_recognition`
(face_recognition_integration.py lines 108-121):

    matches = face_recognition.compare_faces(known_face_encodings, face_encoding, tolerance=0.5)
    face_distances = face_recognition.face_distance(known_face_encodings, face_encoding)
    best_match_index = np.argmin(face_distances)
    if matches[best_match_index] and face_distances[best_match_index] < 0.5: ...

`np.argmin` on an empty distance array raises `ValueError`; otherwise the
face is matched to the minimum-distance identity exactly when that distance
is below the hardcoded 0.5 tolerance (strict, via the second conjunct). -/
def cliMatchFace (encs : List Encoding) (names ids : List String) (q : Encoding) :
    Except PyErr MatchResult :=
  match argminIdx (face_distance_sq encs q) with
  | none => .error .valueError
  | some i =>
    if (compare_faces encs q (cliTolerance ^ 2)).getD i false = true ∧
        (face_distance_sq encs q).getD i 0 < cliTolerance ^ 2 then
      .ok (.matched (ids.getD i "") (names.getD i ""))
    else
      .ok .unknown

/-- Embedding of the per-face matching block of the GUI worker
(gui_integration.py lines 114-120).  It differs from the CLI block only in
the extra truthiness test `matches and ...` on the (possibly empty) match
list, but `np.argmin(face_distances)` is evaluated BEFORE that test, so an
empty gallery still raises `ValueError`. -/
def guiMatchFace (encs : List Encoding) (names ids : List String) (q : Encoding) :
    Except PyErr MatchResult :=
  match argminIdx (face_distance_sq encs q) with
  | none => .error .valueError
  | some i =>
    if (compare_faces encs q (cliTolerance ^ 2)) ≠ [] ∧
        (compare_faces encs q (cliTolerance ^ 2)).getD i false = true ∧
        (face_distance_sq encs q).getD i 0 < cliTolerance ^ 2 then
      .ok (.matched (ids.getD i "") (names.getD i ""))
    else
      .ok .unknown

/-- face_recognition_integration.py line 75: `detection_threshold = 5`
(seconds), the interval the recognition loop actually uses to gate
re-detection of the same user.  The configured
`ATTENDANCE_LOGGING_INTERVAL` (300) is never read by the loop. -/
def detection_threshold : ℚ := 5

/-- Embedding of the re-log gate of the recognition loops
(face_recognition_integration.py lines 126-127, gui_integration.py lines
124-125):

    user_id not in last_detected_time or
      (current_time - last_detected_time[user_id]).total_seconds() > cooldown

`lastDetected` is the process-local `last_detected_time` dictionary. -/
def shouldLog (lastDetected : List (String × ℚ)) (uid : String) (now cooldown : ℚ) :
    Bool :=
  match lastDetected.lookup uid with
  | none => true
  | some t => decide (now - t > cooldown)

/-- A value stored in one of the Python dictionaries the code passes around:
either a string or a face encoding. -/
inductive PyVal where
  | str (s : String)
  | enc (e : Encoding)
deriving DecidableEq

/-- Coercion applied when the Python code uses a dictionary value as an
encoding (the dynamic typing of the source; every value actually retrieved
from a `face_encoding` column is an encoding). -/
def PyVal.asEnc : PyVal → Encoding
  | .enc e => e
  | .str _ => []

/-- Coercion applied when the Python code uses a dictionary value as a
string. -/
def PyVal.asStr : PyVal → String
  | .str s => s
  | .enc _ => ""

/-- A Python dict with string keys, modelled as an association list. -/
abbrev PyDict := List (String × PyVal)

/-- Python subscript `d[k]` on a dict: the value when the key is present,
`KeyError` otherwise. -/
def dictGet (d : PyDict) (k : String) : Except PyErr PyVal :=
  match d.lookup k with
  | some v => .ok v
  | none => .error .keyError

/-- Evaluates a Python list comprehension `[f(x) for x in l]`: elements are
produced left to right and the first exception aborts the whole list. -/
def mapExcept (f : α → Except PyErr β) : List α → Except PyErr (List β)
  | [] => .ok []
  | a :: l => do
    let b ← f a
    let bs ← mapExcept f l
    .ok (b :: bs)

/-- A row of the `users` table (database_module.py lines 47-53):
`user_id TEXT PRIMARY KEY, name TEXT NOT NULL, face_encoding BLOB NOT NULL`. -/
structure UserRow where
  user_id : String
  nm : String
  face_encoding : Encoding
deriving DecidableEq

/-- A row of the `attendance` table (database_module.py lines 60-68):
`id INTEGER PRIMARY KEY AUTOINCREMENT, user_id TEXT, timestamp TEXT,
status TEXT`.  Timestamps are absolute seconds; `DATE(timestamp)` is day
extraction, see `dateOf`. -/
structure AttRow where
  rowId : Nat
  user_id : String
  timestamp : ℚ
  status : String
deriving DecidableEq

/-- The SQLite database state: the two tables managed by `DatabaseManager`. -/
structure DB where
  users : List UserRow
  attendance : List AttRow
deriving DecidableEq

/-- Embedding of `DatabaseManager.get_all_users` (database_module.py lines
118-151): one dictionary per `users` row, with keys `'user_id'`, `'name'`
and `'face_encoding'` (lines 140-144), in table order. -/
def get_all_users (users : List UserRow) : List PyDict :=
  users.map (fun u =>
    [("user_id", PyVal.str u.user_id), ("name", PyVal.str u.nm),
     ("face_encoding", PyVal.enc u.face_encoding)])

/-- Embedding of `DatabaseManager.get_user_by_id` (database_module.py lines
243-272): the first `users` row whose `user_id` matches, if any. -/
def get_user_by_id (db : DB) (uid : String) : Option UserRow :=
  db.users.find? (fun u => u.user_id == uid)

/-- Embedding of `DatabaseManager.add_user` (database_module.py lines
77-116): if a row with the same `user_id` exists the insert is refused and
`False` returned (lines 96-99); otherwise the row is appended and `True`
returned.  Returns the result together with the new database state. -/
def add_user (db : DB) (uid nm : String) (enc : Encoding) : Bool × DB :=
  if db.users.any (fun u => u.user_id == uid) then
    (false, db)
  else
    (true, { db with users := db.users ++ [⟨uid, nm, enc⟩] })

/-- Embedding of `DatabaseManager.log_attendance` (database_module.py lines
153-183): appends one `attendance` row with the wall-clock timestamp and
returns `True`.  (The `False` branch of the source is a caught
`sqlite3.Error`, an environmental failure outside this state model; the
fresh `AUTOINCREMENT` id is modelled by the table length.) -/
def log_attendance (db : DB) (uid : String) (now : ℚ) (status : String) : Bool × DB :=
  (true, { db with attendance := db.attendance ++ [⟨db.attendance.length, uid, now, status⟩] })

/-- Embedding of `DatabaseManager.delete_user` (database_module.py lines
274-304): deletes the user's attendance rows, then the user's rows, and
returns `True`. -/
def delete_user (db : DB) (uid : String) : Bool × DB :=
  (true,
   { users := db.users.filter (fun u => ¬ u.user_id == uid),
     attendance := db.attendance.filter (fun a => ¬ a.user_id == uid) })

/-- One row of the `get_attendance_records` JOIN result (database_module.py
lines 206-215): attendance id, user id, joined user name, timestamp,
status. -/
structure JoinedRow where
  rowId : Nat
  user_id : String
  nm : String
  timestamp : ℚ
  status : String
deriving DecidableEq

/-- SQL inner join `attendance a JOIN users u ON a.user_id = u.user_id`
(database_module.py lines 206-215), in table order: every attendance row is
paired with every matching user row. -/
def joinRows : List AttRow → List UserRow → List JoinedRow
  | [], _ => []
  | a :: as, users =>
    (users.filter (fun u => u.user_id == a.user_id)).map
      (fun u => ⟨a.rowId, a.user_id, u.nm, a.timestamp, a.status⟩)
    ++ joinRows as users

/-- SQL `DATE(timestamp)`: the calendar day of an absolute timestamp in
seconds, as a day number. -/
def dateOf (ts : ℚ) : ℤ := ⌊ts / 86400⌋

/-- The WHERE clause of `get_attendance_records` (database_module.py lines
218-227): `DATE(a.timestamp) BETWEEN s AND e` with either bound optional. -/
def dateInRange (d : ℤ) : Option ℤ → Option ℤ → Bool
  | some s, some e => decide (s ≤ d ∧ d ≤ e)
  | some s, none => decide (s ≤ d)
  | none, some e => decide (d ≤ e)
  | none, none => true

/-- Embedding of `DatabaseManager.get_attendance_records` (database_module.py
lines 185-241): the date-filtered join of `attendance` with `users`.
The source's final `ORDER BY a.timestamp DESC` only permutes the result
rows and is not modelled; every theorem below is about which rows appear. -/
def get_attendance_records (db : DB) (s e : Option ℤ) : List JoinedRow :=
  (joinRows db.attendance db.users).filter
    (fun r => dateInRange (dateOf r.timestamp) s e)

/-- Embedding of `load_known_faces` (face_recognition_integration.py lines
13-29): three list comprehensions over `get_all_users()` reading
`user['encoding']`, `user['name']` and `user['id']` in that order (lines
24-26).  The rows returned by `get_all_users` carry the keys
`'face_encoding'`, `'name'` and `'user_id'` instead.
user_registration.py lines 45-49 perform the same three accesses on the
same rows. -/
def load_known_faces (users : List UserRow) :
    Except PyErr (List PyVal × List PyVal × List PyVal) := do
  let rows := get_all_users users
  let encodings ← mapExcept (fun d => dictGet d "encoding") rows
  let names ← mapExcept (fun d => dictGet d "name") rows
  let ids ← mapExcept (fun d => dictGet d "id") rows
  .ok (encodings, names, ids)

/-- How far `run_face_recognition` (face_recognition_integration.py lines
51-60) gets before its main loop: it crashes if `load_known_faces` raises,
returns with a "no registered faces" message if the loaded encoding list is
empty (lines 58-60), and only otherwise enters the capture loop. -/
inductive RunStart where
  | crashed (e : PyErr)
  | noRegisteredFaces
  | enteredLoop (encs names ids : List PyVal)
deriving DecidableEq

/-- Embedding of the start of `run_face_recognition`
(face_recognition_integration.py lines 51-60). -/
def run_face_recognition_start (users : List UserRow) : RunStart :=
  match load_known_faces users with
  | .error e => .crashed e
  | .ok (encs, names, ids) =>
    if encs = [] then .noRegisteredFaces else .enteredLoop encs names ids

/-- The method names defined by `class DatabaseManager` (database_module.py
lines 9-304), in source order.  Python attribute access on the manager
resolves against this set. -/
def databaseManagerMethods : List String :=
  ["__init__", "_get_connection", "_create_tables", "add_user",
   "get_all_users", "log_attendance", "get_attendance_records",
   "get_user_by_id", "delete_user"]

/-- Embedding of the body of `mark_attendance`
(face_recognition_integration.py lines 31-49) over an explicit method set
(Python duck typing): resolving a missing attribute raises
`AttributeError`.  `recordExistsToday` is the result of the (would-be)
`get_attendance_record(user_id, today)` call and `writeOk` the result of
the (would-be) `add_attendance_record(user_id, today)` write; the source
discards the write's result and returns `True` on both branches (lines
42-49). -/
def mark_attendance_with (methods : List String)
    (recordExistsToday writeOk : Bool) : Except PyErr Bool :=
  if methods.contains "get_attendance_record" then
    if recordExistsToday then
      .ok true
    else if methods.contains "add_attendance_record" then
      let _ := writeOk
      .ok true
    else
      .error .attributeError
  else
    .error .attributeError

/-- `mark_attendance` as deployed: the body resolved against the actual
`DatabaseManager` method set. -/
def mark_attendance (recordExistsToday writeOk : Bool) : Except PyErr Bool :=
  mark_attendance_with databaseManagerMethods recordExistsToday writeOk

/-- One iteration of the registration capture loop: the wall-clock time of
the frame (seconds since the loop's `start_time`) and the encoding of the
detected face, if any (`face_recognition.face_encodings(...)[0]` for the
first detected location, user_registration.py lines 75-78). -/
structure Frame where
  t : ℚ
  face : Option Encoding
deriving DecidableEq

/-- How the registration capture loop (user_registration.py lines 60-132)
exits, with the samples captured so far: the 120-second timeout (lines
67-69), the duplicate-face break (lines 81-102), the full-capture break
(lines 112-121), or the frame stream ending (read failure or `q`). -/
inductive LoopExit where
  | timeout (samples : List Encoding)
  | dupFace (uid nm : String) (samples : List Encoding)
  | complete (samples : List Encoding)
  | streamEnd (samples : List Encoding)
deriving DecidableEq

/-- The `face_encodings_list` at loop exit. -/
def LoopExit.samples : LoopExit → List Encoding
  | .timeout s => s
  | .dupFace _ _ s => s
  | .complete s => s
  | .streamEnd s => s

/-- Embedding of the registration capture loop (user_registration.py lines
60-132).  Each frame: the unconditional 120-second timeout check (line 67);
then, if a face is detected, the duplicate-face validation
`compare_faces(known_encodings, enc, tolerance=FACE_MATCH_THRESHOLD)` with
`True in matches` / `matches.index(True)` (lines 81-102, breaking out of
the loop); then the timed capture
`images_captured < num_images and (t - start) > 2 * images_captured`
(line 112), breaking once `num_images` samples are captured (line 120). -/
def regLoop (kEncs : List Encoding) (kNames kIds : List String) (numImages : Nat) :
    List Frame → List Encoding → LoopExit
  | [], samples => .streamEnd samples
  | f :: rest, samples =>
    if f.t > 120 then .timeout samples
    else
      match f.face with
      | none => regLoop kEncs kNames kIds numImages rest samples
      | some enc =>
        match firstTrueIdx (compare_faces kEncs enc (FACE_MATCH_THRESHOLD ^ 2)) with
        | some i => .dupFace (kIds.getD i "") (kNames.getD i "") samples
        | none =>
          if samples.length < numImages ∧ f.t > 2 * (samples.length : ℚ) then
            if samples.length + 1 = numImages then .complete (samples ++ [enc])
            else regLoop kEncs kNames kIds numImages rest (samples ++ [enc])
          else
            regLoop kEncs kNames kIds numImages rest samples

/-- Pointwise sum of two encodings. -/
def vecAdd (a b : Encoding) : Encoding := List.zipWith (· + ·) a b

/-- Embedding of `np.mean(face_encodings_list, axis=0)`
(user_registration.py line 140): the elementwise sum of the vectors divided
by their count.  (`np.mean` of an empty list is NaN; the empty case is
unreachable for `num_images > 0` and modelled as the empty vector.) -/
def npMeanAxis0 : List Encoding → Encoding
  | [] => []
  | e :: es => (es.foldl vecAdd e).map (fun x => x / ((es.length : ℚ) + 1))

/-- Outcome of `register_new_user`.  The Python function only returns a
boolean; the constructors record which `return` / break path produced it
(only `registered` is the `True` path). -/
inductive RegOutcome where
  | invalidInput
  | duplicateId
  | keyErrorCrash
  | alreadyRegistered (uid nm : String)
  | registered
  | dbAddFailed
  | incomplete
deriving DecidableEq

/-- The samples the capture loop collects for a given database and frame
stream (empty when the known-user load crashes first). -/
def collectedSamples (db : DB) (numImages : Nat) (frames : List Frame) :
    List Encoding :=
  match load_known_faces db.users with
  | .error _ => []
  | .ok (kEncs, kNames, kIds) =>
    LoopExit.samples
      (regLoop (kEncs.map PyVal.asEnc) (kNames.map PyVal.asStr)
        (kIds.map PyVal.asStr) numImages frames [])

/-- Embedding of `register_new_user` (user_registration.py lines 12-157):
empty-input check (lines 25-27), duplicate-id check via `get_user_by_id`
(lines 29-32), the known-user load with the `user['encoding']` /
`user['id']` key accesses (lines 45-49, raising `KeyError` whenever the
users table is nonempty), the capture loop, and the post-loop storage step
(lines 138-157): when exactly `num_images` samples were collected the
average encoding is computed with `np.mean(..., axis=0)` and stored via
`add_user`; any other exit returns `False` without touching the store. -/
def register_new_user (db : DB) (uid nm : String) (numImages : Nat)
    (frames : List Frame) : RegOutcome × DB :=
  if uid = "" ∨ nm = "" then (.invalidInput, db)
  else if (get_user_by_id db uid).isSome then (.duplicateId, db)
  else
    match load_known_faces db.users with
    | .error _ => (.keyErrorCrash, db)
    | .ok (kEncs, kNames, kIds) =>
      let exit :=
        regLoop (kEncs.map PyVal.asEnc) (kNames.map PyVal.asStr)
          (kIds.map PyVal.asStr) numImages frames []
      if (LoopExit.samples exit).length = numImages then
        let r := add_user db uid nm (npMeanAxis0 (LoopExit.samples exit))
        if r.1 then (.registered, r.2) else (.dbAddFailed, r.2)
      else
        match exit with
        | .dupFace u n _ => (.alreadyRegistered u n, db)
        | _ => (.incomplete, db)

/-! ### Helper lemmas -/

theorem argminIdx_cons_isSome (x : ℚ) (xs : List ℚ) :
    (argminIdx (x :: xs)).isSome := by
  rw [argminIdx]
  split
  · simp
  · split <;> simp

theorem argminIdx_lt_length :
    ∀ {l : List ℚ} {i : Nat}, argminIdx l = some i → i < l.length := by
  intro l
  induction l with
  | nil => intro i h; simp [argminIdx] at h
  | cons x xs ih =>
    intro i h
    rw [argminIdx] at h
    rw [List.length_cons]
    split at h
    · simp at h
      omega
    · rename_i j hxs
      have hj := ih hxs
      split at h <;> simp at h <;> omega

theorem argminIdx_min :
    ∀ {l : List ℚ} {i : Nat}, argminIdx l = some i →
      ∀ j, j < l.length → l.getD i 0 ≤ l.getD j 0 := by
  intro l
  induction l with
  | nil => intro i h; simp [argminIdx] at h
  | cons x xs ih =>
    intro i h j hj
    rw [argminIdx] at h
    split at h
    · rename_i hxs
      simp at h
      subst h
      cases xs with
      | nil =>
        have hj0 : j = 0 := by simpa using hj
        subst hj0
        simp
      | cons y ys =>
        have hs := argminIdx_cons_isSome y ys
        rw [hxs] at hs
        simp at hs
    · rename_i k hxs
      have hmin := ih hxs
      split at h
      · rename_i hc
        simp at h
        subst h
        cases j with
        | zero =>
          simp only [List.getD_cons_succ, List.getD_cons_zero]
          exact le_of_lt hc
        | succ j =>
          simp only [List.getD_cons_succ]
          exact hmin j (by simp only [List.length_cons] at hj; omega)
      · rename_i hc
        simp at h
        subst h
        cases j with
        | zero => simp
        | succ j =>
          simp only [List.getD_cons_zero, List.getD_cons_succ]
          exact le_trans (not_lt.mp hc)
            (hmin j (by simp only [List.length_cons] at hj; omega))

theorem compare_faces_getD (knowns : List Encoding) (q : Encoding) (tolSq : ℚ)
    {i : Nat} (h : i < knowns.length) :
    (compare_faces knowns q tolSq).getD i false =
      decide ((face_distance_sq knowns q).getD i 0 ≤ tolSq) := by
  have hlen : i < (face_distance_sq knowns q).length := by
    simpa [face_distance_sq] using h
  rw [compare_faces, List.getD_eq_getElem?_getD, List.getElem?_map,
    List.getD_eq_getElem?_getD, List.getElem?_eq_getElem hlen]
  simp

theorem face_distance_sq_length (knowns : List Encoding) (q : Encoding) :
    (face_distance_sq knowns q).length = knowns.length := by
  simp [face_distance_sq]

/-! ### C1: the matching decision -/

/-- C1 (counterexample): the claim predicts that a gallery identity at
Euclidean distance 0.55 from the query is returned as a match, since
0.55 is at most the configured threshold 0.6; the recognition loop instead
labels the face Unknown, because it compares against a hardcoded 0.5. -/
theorem match_decision_threshold_counterexample :
    distSq [(0 : ℚ)] [(11 : ℚ) / 20] = ((11 : ℚ) / 20) ^ 2 ∧
    ((11 : ℚ) / 20) ^ 2 ≤ FACE_MATCH_THRESHOLD ^ 2 ∧
    cliMatchFace [[(11 : ℚ) / 20]] ["Bob"] ["B001"] [(0 : ℚ)] = .ok .unknown := by
  refine ⟨by norm_num [distSq], by norm_num [FACE_MATCH_THRESHOLD], ?_⟩
  norm_num [cliMatchFace, argminIdx, face_distance_sq, distSq, compare_faces,
    cliTolerance]

/-- C1 (amended): the per-face matching decision of the recognition loop
returns the gallery identity of minimum Euclidean distance, but accepts it
against the hardcoded tolerance 0.5 with a strict comparison — not against
the configured `FACE_MATCH_THRESHOLD` (0.6): when the minimum distance is
below 0.5 the loop returns that identity, and otherwise it returns
Unknown. -/
theorem match_decision_hardcoded_tolerance (encs : List Encoding)
    (names ids : List String) (q : Encoding) (i : Nat)
    (h : argminIdx (face_distance_sq encs q) = some i) :
    (∀ j, j < encs.length →
      (face_distance_sq encs q).getD i 0 ≤ (face_distance_sq encs q).getD j 0) ∧
    ((face_distance_sq encs q).getD i 0 < cliTolerance ^ 2 →
      cliMatchFace encs names ids q =
        .ok (.matched (ids.getD i "") (names.getD i ""))) ∧
    (cliTolerance ^ 2 ≤ (face_distance_sq encs q).getD i 0 →
      cliMatchFace encs names ids q = .ok .unknown) := by
  have hi : i < encs.length := by
    have := argminIdx_lt_length h
    rwa [face_distance_sq_length] at this
  refine ⟨?_, ?_, ?_⟩
  · intro j hj
    exact argminIdx_min h j (by rwa [face_distance_sq_length])
  · intro hlt
    have hc : (compare_faces encs q (cliTolerance ^ 2)).getD i false = true ∧
        (face_distance_sq encs q).getD i 0 < cliTolerance ^ 2 := by
      refine ⟨?_, hlt⟩
      rw [compare_faces_getD _ _ _ hi]
      simpa using le_of_lt hlt
    simp only [cliMatchFace, h]
    rw [if_pos hc]
  · intro hge
    have hc : ¬ ((compare_faces encs q (cliTolerance ^ 2)).getD i false = true ∧
        (face_distance_sq encs q).getD i 0 < cliTolerance ^ 2) := by
      intro hc
      exact absurd hc.2 (not_lt.mpr hge)
    simp only [cliMatchFace, h]
    rw [if_neg hc]

/-- C1 (witness): the two-identity scenario of the claim, A at distance 0.3
and B at distance 0.55 from the query, still yields A under the amended
rule, since 0.3 is below the hardcoded 0.5. -/
theorem match_decision_hardcoded_tolerance_witness :
    cliMatchFace [[(3 : ℚ) / 10], [(11 : ℚ) / 20]] ["Alice", "Bob"]
      ["A001", "B001"] [(0 : ℚ)] = .ok (.matched "A001" "Alice") := by
  have h : argminIdx
      (face_distance_sq [[(3 : ℚ) / 10], [(11 : ℚ) / 20]] [(0 : ℚ)]) = some 0 := by
    norm_num [face_distance_sq, distSq, argminIdx]
  exact (match_decision_hardcoded_tolerance [[(3 : ℚ) / 10], [(11 : ℚ) / 20]]
    ["Alice", "Bob"] ["A001", "B001"] [(0 : ℚ)] 0 h).2.1
    (by norm_num [face_distance_sq, distSq, cliTolerance])

/-! ### C2: the re-log gate -/

/-- C2 (counterexample): the claim predicts that after a log at t=0 the gate
suppresses identity X at t=299, with the default cooldown of 300 seconds;
the recognition loop's gate instead uses the hardcoded
`detection_threshold = 5` seconds (the configured
`ATTENDANCE_LOGGING_INTERVAL = 300` is never read), so at t=299 it fires. -/
theorem shouldLog_cooldown_counterexample :
    detection_threshold = 5 ∧
    ATTENDANCE_LOGGING_INTERVAL = 300 ∧
    shouldLog [("X", 0)] "X" 299 detection_threshold = true := by
  refine ⟨rfl, rfl, ?_⟩
  norm_num [shouldLog, List.lookup, detection_threshold]

/-- C2 (amended): the gate returns true iff the identity has no entry in
the last-detected map or more than the cooldown has elapsed since the
recorded timestamp — but the cooldown the recognition loop passes is the
hardcoded `detection_threshold = 5` seconds, not 300: after an entry at
t=0, the gate is false at t=4 and true at t=6. -/
theorem shouldLog_guard_characterization :
    (∀ (m : List (String × ℚ)) (uid : String) (now cooldown : ℚ),
      shouldLog m uid now cooldown = true ↔
        (m.lookup uid = none ∨ ∃ t, m.lookup uid = some t ∧ now - t > cooldown)) ∧
    shouldLog [("X", 0)] "X" 4 detection_threshold = false ∧
    shouldLog [("X", 0)] "X" 6 detection_threshold = true := by
  refine ⟨?_, ?_, ?_⟩
  · intro m uid now cooldown
    rw [shouldLog]
    cases hm : m.lookup uid with
    | none => simp
    | some t => simp
  · norm_num [shouldLog, List.lookup, detection_threshold]
  · norm_num [shouldLog, List.lookup, detection_threshold]

/-! ### C3: loading the gallery -/

theorem load_known_faces_of_ne_nil (users : List UserRow) (h : users ≠ []) :
    load_known_faces users = .error .keyError := by
  obtain ⟨u, rest, rfl⟩ := List.exists_cons_of_ne_nil h
  simp [load_known_faces, get_all_users, mapExcept, dictGet, List.lookup,
    Bind.bind, Except.bind]

theorem load_known_faces_nil : load_known_faces [] = .ok ([], [], []) := by
  simp [load_known_faces, get_all_users, mapExcept, Bind.bind, Except.bind]

/-- C3 (confirmed): `get_all_users` returns rows keyed `'user_id'`,
`'name'`, `'face_encoding'`, while `load_known_faces` reads
`user['encoding']` and `user['id']`; so for every database with at least
one enrolled user the load raises `KeyError` and `run_face_recognition`
crashes before its loop, and with an empty gallery it returns at the
"no registered faces" check before any matching. -/
theorem load_known_faces_keyerror (users : List UserRow) :
    (users ≠ [] →
      load_known_faces users = .error .keyError ∧
      run_face_recognition_start users = .crashed .keyError) ∧
    (users = [] → run_face_recognition_start users = .noRegisteredFaces) := by
  constructor
  · intro hne
    have hload := load_known_faces_of_ne_nil users hne
    exact ⟨hload, by simp [run_face_recognition_start, hload]⟩
  · rintro rfl
    simp [run_face_recognition_start, load_known_faces_nil]

/-- C3 (witness): the two branches at concrete inputs — a database with one
enrolled user crashes with `KeyError`; an empty one exits before
matching. -/
theorem load_known_faces_keyerror_witness :
    run_face_recognition_start [⟨"U001", "John", [0]⟩] = .crashed .keyError ∧
    run_face_recognition_start [] = .noRegisteredFaces := by
  constructor
  · exact ((load_known_faces_keyerror [⟨"U001", "John", [0]⟩]).1 (by simp)).2
  · exact (load_known_faces_keyerror []).2 rfl

/-! ### C4: mark_attendance and the missing database methods -/

/-- C4 (confirmed): `mark_attendance` resolves
`db_manager.get_attendance_record`, but `DatabaseManager` defines neither
`get_attendance_record` nor `add_attendance_record` (its logging method is
`log_attendance`), so every call raises `AttributeError` and no attendance
event can be recorded through it. -/
theorem mark_attendance_attribute_error :
    databaseManagerMethods.contains "get_attendance_record" = false ∧
    databaseManagerMethods.contains "add_attendance_record" = false ∧
    databaseManagerMethods.contains "log_attendance" = true ∧
    ∀ recordExistsToday writeOk,
      mark_attendance recordExistsToday writeOk = .error .attributeError := by
  refine ⟨by simp [databaseManagerMethods], by simp [databaseManagerMethods],
    by simp [databaseManagerMethods], ?_⟩
  intro r w
  simp [mark_attendance, mark_attendance_with, databaseManagerMethods]

/-! ### C5: write failures masked as success -/

/-- C5 (code_bug): the body of `mark_attendance` returns `True` on both
branches and discards the outcome of its attendance write, so even with
both database methods present a failed write is reported as success; and
the deployed function can never report failure to its caller at all. -/
theorem mark_attendance_masks_write_failure :
    mark_attendance_with ["get_attendance_record", "add_attendance_record"]
      false false = .ok true ∧
    ∀ recordExistsToday writeOk,
      mark_attendance recordExistsToday writeOk ≠ .ok false := by
  constructor
  · simp [mark_attendance_with]
  · intro r w
    simp [mark_attendance, mark_attendance_with, databaseManagerMethods]

/-! ### C9: matching against an empty gallery -/

/-- C9 (code_bug): on the GUI attendance path the empty-gallery case is not
checked before the nearest-neighbor scan: `np.argmin` is evaluated on the
empty distance array, which raises `ValueError` (the `matches and ...`
guard comes too late), instead of returning Unknown.  The CLI path returns
at its "no registered faces" check before any matching. -/
theorem gui_empty_gallery_raises :
    (∀ (names ids : List String) (q : Encoding),
      guiMatchFace [] names ids q = .error .valueError) ∧
    run_face_recognition_start [] = .noRegisteredFaces := by
  constructor
  · intro names ids q
    simp [guiMatchFace, face_distance_sq, argminIdx]
  · simp [run_face_recognition_start, load_known_faces, get_all_users, mapExcept,
      Bind.bind, Except.bind]

/-! ### C7: duplicate-face rejection at enrollment -/

/-- C7 (code_bug): enrollment against any nonempty gallery — in particular
one containing a near-duplicate face — crashes with `KeyError` while
loading the known users (`user['encoding']` / `user['id']` against rows
keyed `'face_encoding'` / `'user_id'`), before the duplicate-face check of
lines 81-102 can run; no new identity is persisted (the store is returned
unchanged), but no duplicate-face error naming the matched identity is
produced either. -/
theorem register_nonempty_gallery_keyerror (db : DB) (uid nm : String)
    (numImages : Nat) (frames : List Frame)
    (huid : uid ≠ "") (hnm : nm ≠ "")
    (hfresh : get_user_by_id db uid = none) (hne : db.users ≠ []) :
    register_new_user db uid nm numImages frames = (.keyErrorCrash, db) := by
  rw [register_new_user]
  rw [if_neg (by simp [huid, hnm])]
  rw [if_neg (by simp [hfresh])]
  rw [load_known_faces_of_ne_nil db.users hne]

/-- C7 (witness): registering a fresh id against a one-user gallery crashes
with `KeyError` and leaves the store unchanged. -/
theorem register_nonempty_gallery_keyerror_witness :
    register_new_user ⟨[⟨"U001", "John", [0]⟩], []⟩ "S002" "New" 5 [] =
      (.keyErrorCrash, ⟨[⟨"U001", "John", [0]⟩], []⟩) :=
  register_nonempty_gallery_keyerror ⟨[⟨"U001", "John", [0]⟩], []⟩ "S002" "New" 5 []
    (by simp) (by simp) (by simp [get_user_by_id]) (by simp)

/-! ### C8: user-id uniqueness -/

/-- C8 (confirmed): `user_id` uniqueness is preserved by every store
operation — `add_user` refuses an existing id, returning `False` with the
store unchanged, `delete_user` and `log_attendance` keep the users table
duplicate-free — and `register_new_user` rejects a duplicate id (via
`get_user_by_id`) before consuming a single frame. -/
theorem user_id_uniqueness (db : DB) (uid nm : String) (enc : Encoding)
    (numImages : Nat) (frames : List Frame) (now : ℚ) (status : String)
    (h : (db.users.map (fun u => u.user_id)).Nodup) :
    ((add_user db uid nm enc).2.users.map (fun u => u.user_id)).Nodup ∧
    ((delete_user db uid).2.users.map (fun u => u.user_id)).Nodup ∧
    ((log_attendance db uid now status).2.users.map (fun u => u.user_id)).Nodup ∧
    (db.users.any (fun u => u.user_id == uid) = true →
      add_user db uid nm enc = (false, db)) ∧
    (uid ≠ "" → nm ≠ "" → (get_user_by_id db uid).isSome →
      register_new_user db uid nm numImages frames = (.duplicateId, db)) := by
  refine ⟨?_, ?_, ?_, ?_, ?_⟩
  · rw [add_user]
    split
    · exact h
    · rename_i hany
      simp only [List.map_append, List.map_cons, List.map_nil]
      rw [List.nodup_append]
      refine ⟨h, List.nodup_singleton _, ?_⟩
      intro a ha hb
      simp at hb
      subst hb
      simp [List.any_eq_true] at hany
      obtain ⟨u, hu, huid'⟩ := List.mem_map.mp ha
      exact hany u hu huid'
  · rw [delete_user]
    exact List.Nodup.sublist ((List.filter_sublist db.users).map _) h
  · rw [log_attendance]
    exact h
  · intro hany
    rw [add_user, if_pos hany]
  · intro huid hnm hsome
    rw [register_new_user]
    rw [if_neg (by simp [huid, hnm])]
    rw [if_pos hsome]

/-- C8 (witness): adding or registering the already-present id `U001` in a
one-user store is refused with the store unchanged. -/
theorem user_id_uniqueness_witness :
    register_new_user ⟨[⟨"U001", "John", [0]⟩], []⟩ "U001" "Jane" 5 [] =
      (.duplicateId, ⟨[⟨"U001", "John", [0]⟩], []⟩) :=
  (user_id_uniqueness ⟨[⟨"U001", "John", [0]⟩], []⟩ "U001" "Jane" [1] 5 [] 0 "Present"
    (by simp)).2.2.2.2 (by simp) (by simp) (by simp [get_user_by_id])

/-! ### C6: the stored enrollment encoding is the sample mean -/

theorem vecAdd_cons (x y : ℚ) (xs ys : Encoding) :
    vecAdd (x :: xs) (y :: ys) = (x + y) :: vecAdd xs ys := rfl

theorem length_vecAdd (a b : Encoding) :
    (vecAdd a b).length = min a.length b.length := by
  simp [vecAdd]

theorem getD_vecAdd : ∀ (a b : Encoding) (i : Nat), i < a.length → i < b.length →
    (vecAdd a b).getD i 0 = a.getD i 0 + b.getD i 0 := by
  intro a
  induction a with
  | nil => intro b i h _; simp at h
  | cons x xs ih =>
    intro b i h hb
    cases b with
    | nil => simp at hb
    | cons y ys =>
      cases i with
      | zero => simp [vecAdd_cons]
      | succ i =>
        simp only [vecAdd_cons, List.getD_cons_succ]
        exact ih ys i (by simp only [List.length_cons] at h; omega)
          (by simp only [List.length_cons] at hb; omega)

theorem foldl_vecAdd_length : ∀ (es : List Encoding) (acc : Encoding) (L : Nat),
    acc.length = L → (∀ e ∈ es, e.length = L) →
    (es.foldl vecAdd acc).length = L := by
  intro es
  induction es with
  | nil => intro acc L hacc _; simpa using hacc
  | cons e es ih =>
    intro acc L hacc hall
    simp only [List.foldl_cons]
    refine ih (vecAdd acc e) L ?_ (fun x hx => hall x (List.mem_cons_of_mem _ hx))
    rw [length_vecAdd, hacc, hall e (List.mem_cons_self e es)]
    exact min_self L

theorem foldl_vecAdd_getD : ∀ (es : List Encoding) (acc : Encoding) (L i : Nat),
    acc.length = L → (∀ e ∈ es, e.length = L) → i < L →
    (es.foldl vecAdd acc).getD i 0 =
      acc.getD i 0 + (es.map (fun e => e.getD i 0)).sum := by
  intro es
  induction es with
  | nil => intro acc L i _ _ _; simp
  | cons e es ih =>
    intro acc L i hacc hall hi
    simp only [List.foldl_cons, List.map_cons, List.sum_cons]
    have he : e.length = L := hall e (List.mem_cons_self e es)
    have hlen : (vecAdd acc e).length = L := by
      rw [length_vecAdd, hacc, he]
      exact min_self L
    rw [ih (vecAdd acc e) L i hlen (fun x hx => hall x (List.mem_cons_of_mem _ hx)) hi]
    rw [getD_vecAdd acc e i (by rw [hacc]; exact hi) (by rw [he]; exact hi)]
    ring

theorem getD_map_div (xs : List ℚ) (c : ℚ) (i : Nat) (h : i < xs.length) :
    (xs.map (fun x => x / c)).getD i 0 = xs.getD i 0 / c := by
  rw [List.getD_eq_getElem?_getD, List.getElem?_map, List.getD_eq_getElem?_getD,
    List.getElem?_eq_getElem h]
  simp

theorem npMeanAxis0_getD (l : List Encoding) (L : Nat) (hne : l ≠ [])
    (hall : ∀ e ∈ l, e.length = L) (i : Nat) (hi : i < L) :
    (npMeanAxis0 l).getD i 0 =
      (l.map (fun e => e.getD i 0)).sum / (l.length : ℚ) := by
  obtain ⟨e, es, rfl⟩ := List.exists_cons_of_ne_nil hne
  have he : e.length = L := hall e (List.mem_cons_self e es)
  have hrest : ∀ x ∈ es, x.length = L := fun x hx => hall x (List.mem_cons_of_mem _ hx)
  have hfl : (es.foldl vecAdd e).length = L := foldl_vecAdd_length es e L he hrest
  simp only [npMeanAxis0]
  rw [getD_map_div _ _ i (by rw [hfl]; exact hi)]
  rw [foldl_vecAdd_getD es e L i he hrest hi]
  simp only [List.map_cons, List.sum_cons, List.length_cons]
  push_cast
  ring

theorem register_registered_users (db : DB) (uid nm : String) (numImages : Nat)
    (frames : List Frame)
    (h : (register_new_user db uid nm numImages frames).1 = .registered) :
    (collectedSamples db numImages frames).length = numImages ∧
    (register_new_user db uid nm numImages frames).2.users =
      db.users ++ [⟨uid, nm, npMeanAxis0 (collectedSamples db numImages frames)⟩] := by
  rw [register_new_user] at h
  by_cases h1 : uid = "" ∨ nm = ""
  · rw [if_pos h1] at h
    simp at h
  rw [if_neg h1] at h
  by_cases h2 : (get_user_by_id db uid).isSome = true
  · rw [if_pos h2] at h
    simp at h
  rw [if_neg h2] at h
  cases hload : load_known_faces db.users with
  | error e =>
    rw [hload] at h
    simp at h
  | ok triple =>
    obtain ⟨kEncs, kNames, kIds⟩ := triple
    rw [hload] at h
    dsimp only at h
    have hcs : collectedSamples db numImages frames =
        LoopExit.samples
          (regLoop (kEncs.map PyVal.asEnc) (kNames.map PyVal.asStr)
            (kIds.map PyVal.asStr) numImages frames []) := by
      rw [collectedSamples, hload]
    by_cases hS : (LoopExit.samples
        (regLoop (kEncs.map PyVal.asEnc) (kNames.map PyVal.asStr)
          (kIds.map PyVal.asStr) numImages frames [])).length = numImages
    · rw [if_pos hS] at h
      by_cases hA : (add_user db uid nm
          (npMeanAxis0 (LoopExit.samples
            (regLoop (kEncs.map PyVal.asEnc) (kNames.map PyVal.asStr)
              (kIds.map PyVal.asStr) numImages frames [])))).1 = true
      · refine ⟨by rw [hcs]; exact hS, ?_⟩
        rw [register_new_user, if_neg h1, if_neg h2, hload]
        dsimp only
        rw [if_pos hS, if_pos hA, hcs]
        by_cases hAny : db.users.any (fun u => u.user_id == uid) = true
        · rw [add_user, if_pos hAny] at hA
          simp at hA
        · rw [add_user, if_neg hAny]
      · rw [if_neg hA] at h
        simp at h
    · rw [if_neg hS] at h
      split at h <;> simp at h

/-- C6 (confirmed): a successful enrollment with `num_images = 5` collects
exactly 5 qualifying samples, and the encoding stored for the new identity
is `np.mean(samples, axis=0)` — elementwise, the sum of the 5 sample values
at each coordinate divided by 5. -/
theorem register_stores_mean_encoding (db : DB) (uid nm : String)
    (frames : List Frame) (L : Nat)
    (hreg : (register_new_user db uid nm 5 frames).1 = .registered)
    (hall : ∀ e ∈ collectedSamples db 5 frames, e.length = L) :
    (collectedSamples db 5 frames).length = 5 ∧
    (register_new_user db uid nm 5 frames).2.users =
      db.users ++ [⟨uid, nm, npMeanAxis0 (collectedSamples db 5 frames)⟩] ∧
    ∀ i, i < L → (npMeanAxis0 (collectedSamples db 5 frames)).getD i 0 =
      ((collectedSamples db 5 frames).map (fun e => e.getD i 0)).sum / 5 := by
  obtain ⟨hlen, husers⟩ := register_registered_users db uid nm 5 frames hreg
  refine ⟨hlen, husers, ?_⟩
  intro i hi
  have hne : collectedSamples db 5 frames ≠ [] := by
    intro hnil
    rw [hnil] at hlen
    simp at hlen
  rw [npMeanAxis0_getD _ L hne hall i hi, hlen]
  norm_num

/-- The frame stream used by the C6 witness: five one-dimensional face
samples spaced 2 seconds apart. -/
def fiveFrames : List Frame :=
  [⟨1, some [1]⟩, ⟨3, some [2]⟩, ⟨5, some [3]⟩, ⟨7, some [4]⟩, ⟨9, some [5]⟩]

/-- C6 (witness): registering against an empty store with five samples
[1], [2], [3], [4], [5] stores their elementwise mean [3]. -/
theorem register_stores_mean_encoding_witness :
    (register_new_user ⟨[], []⟩ "U1" "Ann" 5 fiveFrames).2.users =
      [⟨"U1", "Ann", npMeanAxis0 (collectedSamples ⟨[], []⟩ 5 fiveFrames)⟩] ∧
    npMeanAxis0 (collectedSamples ⟨[], []⟩ 5 fiveFrames) = [3] := by
  have hreg : (register_new_user ⟨[], []⟩ "U1" "Ann" 5 fiveFrames).1 = .registered := by
    have hni : ¬("U1" = "" ∨ "Ann" = "") := by simp
    norm_num [register_new_user, hni, get_user_by_id, load_known_faces, get_all_users,
      mapExcept, Bind.bind, Except.bind, regLoop, compare_faces, face_distance_sq,
      firstTrueIdx, LoopExit.samples, add_user, fiveFrames]
  have hcs : collectedSamples ⟨[], []⟩ 5 fiveFrames = [[1], [2], [3], [4], [5]] := by
    norm_num [collectedSamples, load_known_faces, get_all_users, mapExcept,
      Bind.bind, Except.bind, regLoop, compare_faces, face_distance_sq,
      firstTrueIdx, LoopExit.samples, fiveFrames]
  constructor
  · simpa using (register_stores_mean_encoding ⟨[], []⟩ "U1" "Ann" fiveFrames 1 hreg
      (by rw [hcs]; intro e he; simp at he; rcases he with rfl | rfl | rfl | rfl | rfl <;> rfl)).2.1
  · rw [hcs]
    norm_num [npMeanAxis0, vecAdd]

/-! ### C10: deleting a user cascades to their attendance rows -/

theorem mem_joinRows_user_id :
    ∀ (atts : List AttRow) (us : List UserRow) (r : JoinedRow),
      r ∈ joinRows atts us → ∃ a ∈ atts, r.user_id = a.user_id := by
  intro atts
  induction atts with
  | nil => intro us r h; simp [joinRows] at h
  | cons a rest ih =>
    intro us r h
    rw [joinRows] at h
    rcases List.mem_append.mp h with hblk | hrec
    · obtain ⟨u, _, rfl⟩ := List.mem_map.mp hblk
      exact ⟨a, by simp, rfl⟩
    · obtain ⟨a', ha', heq⟩ := ih us r hrec
      exact ⟨a', by simp [ha'], heq⟩

theorem filter_swap (p q : α → Bool) (l : List α) :
    (l.filter p).filter q = (l.filter q).filter p := by
  rw [List.filter_filter, List.filter_filter]
  exact List.filter_congr (fun a _ => by rw [Bool.and_comm])

theorem filter_delete_users (us : List UserRow) (X Y : String) (hXY : Y ≠ X) :
    (us.filter (fun u => ¬ u.user_id == X)).filter (fun u => u.user_id == Y) =
      us.filter (fun u => u.user_id == Y) := by
  rw [List.filter_filter]
  refine List.filter_congr ?_
  intro u _
  by_cases hu : u.user_id = Y
  · simp [hu, hXY]
  · simp [hu]

theorem joinRows_filter_delete (X Y : String) (hXY : Y ≠ X) :
    ∀ (atts : List AttRow) (us : List UserRow),
      (joinRows (atts.filter (fun a => ¬ a.user_id == X))
          (us.filter (fun u => ¬ u.user_id == X))).filter
        (fun r => r.user_id == Y) =
      (joinRows atts us).filter (fun r => r.user_id == Y) := by
  intro atts
  induction atts with
  | nil => intro us; simp [joinRows]
  | cons a rest ih =>
    intro us
    by_cases ha : a.user_id = X
    · rw [List.filter_cons, if_neg (by simp [ha])]
      rw [joinRows, List.filter_append]
      have hblk : ((us.filter (fun u => u.user_id == a.user_id)).map
          (fun u =>
            (⟨a.rowId, a.user_id, u.nm, a.timestamp, a.status⟩ : JoinedRow))).filter
            (fun r => r.user_id == Y) = [] := by
        rw [List.filter_eq_nil_iff]
        intro r hr
        obtain ⟨u, _, rfl⟩ := List.mem_map.mp hr
        simp [ha, hXY.symm]
      rw [hblk, List.nil_append]
      exact ih us
    · rw [List.filter_cons, if_pos (by simp [ha])]
      rw [joinRows, joinRows, List.filter_append, List.filter_append]
      congr 1
      · have hus : (us.filter (fun u => ¬ u.user_id == X)).filter
            (fun u => u.user_id == a.user_id) =
            us.filter (fun u => u.user_id == a.user_id) := by
          rw [List.filter_filter]
          refine List.filter_congr ?_
          intro u _
          by_cases hu : u.user_id = a.user_id
          · simp [hu, ha]
          · simp [hu]
        rw [hus]
      · exact ih us

/-- C10 (confirmed): after `delete_user X` (which returns `True`), `X`
appears in neither `get_all_users` nor any `get_attendance_records` result
for any date range, while every other identity's user row and attendance
rows are unchanged. -/
theorem delete_user_cascades (db : DB) (X : String) (s e : Option ℤ) (Y : String)
    (hXY : Y ≠ X) :
    (delete_user db X).1 = true ∧
    (∀ u ∈ (delete_user db X).2.users, u.user_id ≠ X) ∧
    (∀ d ∈ get_all_users (delete_user db X).2.users,
      d.lookup "user_id" ≠ some (PyVal.str X)) ∧
    (∀ r ∈ get_attendance_records (delete_user db X).2 s e, r.user_id ≠ X) ∧
    ((delete_user db X).2.users.filter (fun u => u.user_id == Y) =
      db.users.filter (fun u => u.user_id == Y)) ∧
    ((get_attendance_records (delete_user db X).2 s e).filter
        (fun r => r.user_id == Y) =
      (get_attendance_records db s e).filter (fun r => r.user_id == Y)) := by
  refine ⟨rfl, ?_, ?_, ?_, ?_, ?_⟩
  · intro u hu
    simp only [delete_user, List.mem_filter] at hu
    simpa using hu.2
  · intro d hd
    simp only [delete_user, get_all_users, List.mem_map] at hd
    obtain ⟨u, hu, rfl⟩ := hd
    simp only [List.mem_filter] at hu
    have hne : u.user_id ≠ X := by simpa using hu.2
    simpa [List.lookup] using hne
  · intro r hr
    simp only [delete_user, get_attendance_records, List.mem_filter] at hr
    obtain ⟨a, ha, heq⟩ := mem_joinRows_user_id _ _ r hr.1
    simp only [List.mem_filter] at ha
    have hne : a.user_id ≠ X := by simpa using ha.2
    rw [heq]
    exact hne
  · simp only [delete_user]
    exact filter_delete_users db.users X Y hXY
  · simp only [delete_user, get_attendance_records]
    rw [filter_swap]
    rw [joinRows_filter_delete X Y hXY db.attendance db.users]
    exact filter_swap _ _ _

/-- The two-user store used by the C10 witness. -/
def twoUserDb : DB :=
  ⟨[⟨"U001", "John", [0]⟩, ⟨"U003", "Peter", [1]⟩],
   [⟨0, "U001", 100, "Present"⟩, ⟨1, "U003", 200, "Present"⟩]⟩

/-- C10 (witness): deleting `U003` from a two-user store leaves `U001`'s
attendance rows in the report unchanged. -/
theorem delete_user_cascades_witness :
    ((get_attendance_records (delete_user twoUserDb "U003").2 none none).filter
        (fun r => r.user_id == "U001")) =
      ((get_attendance_records twoUserDb none none).filter
        (fun r => r.user_id == "U001")) :=
  (delete_user_cascades twoUserDb "U003" none none "U001" (by simp)).2.2.2.2.2

end FaceRec
